import Mathlib

/-!
Shallow embedding of the simpleAnalyzerGenerator repository:
  - samples/extractFilePathFromDataSet.py  (dataset resolver)
  - setup_framework.py                     (basic scaffold generator)
  - setup_framework_advanced.py            (advanced scaffold generator and the
    batch submitter `submit_condor.py` that it emits as a text blob)

External effects (catalog query output, filesystem existence, ROOT calls) are
modelled as explicit inputs; file writes, directory creations and console
messages are collected in result structures.
-/

/-! ### String helpers mirroring the Python primitives used by the scripts.
These are written as structural recursions over character lists so that all
definitions evaluate by kernel reduction. -/

/-- Decimal digit list of `n` (most significant first), with `fuel` bounding the
recursion depth; mirrors how Python renders a nonnegative integer in an f-string. -/
def decDigitsAux : Nat → Nat → List Char
  | 0, _ => []
  | f + 1, n => if n = 0 then [] else decDigitsAux f (n / 10) ++ [Nat.digitChar (n % 10)]

/-- Decimal rendering of a natural number, as Python `str(i)` / `f"{i}"` renders it. -/
def natDec (n : Nat) : String :=
  if n = 0 then "0" else String.mk (decDigitsAux n n)

/-- Numeric value of a decimal digit string; used only to prove `natDec` injective. -/
def decVal (l : List Char) : Nat :=
  l.foldl (fun acc c => 10 * acc + (c.toNat - 48)) 0

/-- Python `s.split()`: split on runs of whitespace, discarding empty pieces.
`acc` holds the characters of the current (reversed) token. -/
def splitWsAux : List Char → List Char → List String
  | [], acc => if acc.isEmpty then [] else [String.mk acc.reverse]
  | c :: cs, acc =>
    if c.isWhitespace then
      if acc.isEmpty then splitWsAux cs [] else String.mk acc.reverse :: splitWsAux cs []
    else splitWsAux cs (c :: acc)

/-- Python `s.split()` on a string. -/
def splitWs (s : String) : List String :=
  splitWsAux s.toList []

/-- Python `s.strip()`: drop leading and trailing whitespace. -/
def pyStrip (s : String) : String :=
  String.mk (((s.toList.dropWhile Char.isWhitespace).reverse.dropWhile Char.isWhitespace).reverse)

/-- `listStartsWith hay needle`: `needle` is a prefix of `hay`. -/
def listStartsWith : List Char → List Char → Bool
  | _, [] => true
  | [], _ :: _ => false
  | c :: cs, p :: ps => c == p && listStartsWith cs ps

/-- Python `s.startswith(pre)`. -/
def pyStartsWith (s pre : String) : Bool :=
  listStartsWith s.toList pre.toList

/-- `listHasInfix needle hay`: `needle` occurs as a contiguous run inside `hay`. -/
def listHasInfix (needle : List Char) : List Char → Bool
  | [] => listStartsWith [] needle
  | c :: t => listStartsWith (c :: t) needle || listHasInfix needle t

/-- Python `pat in s` substring test. -/
def strContains (s pat : String) : Bool :=
  listHasInfix pat.toList s.toList

/-- Concatenation of a list of strings, as consecutive `f.write` calls produce. -/
def joinAll : List String → String
  | [] => ""
  | s :: rest => s ++ joinAll rest

/-! ### Dataset resolver — samples/extractFilePathFromDataSet.py -/

/-- The active XRootD redirector hardcoded in `get_file_list`. -/
def redirector : String := "root://cms-xrd-global.cern.ch/"

/-- The DAS query command string built by `get_file_list`. -/
def dasQuery (dataset : String) : String :=
  "dasgoclient --query=\x22file dataset=" ++ dataset ++ "\x22 --limit=0"

/-- Result of `get_file_list`: the returned path list and console messages. -/
structure ResolverResult where
  paths : List String
  messages : List String
deriving DecidableEq

/-- `get_file_list(dataset_name)`, with the raw standard output of the external
DAS query supplied as `queryOutput`. The Python code splits the output on
whitespace, returns `[]` with a diagnostic when no token is found, and otherwise
prepends `redirector` to every token. -/
def get_file_list (dataset queryOutput : String) : ResolverResult :=
  let baseMsgs := ["Executing DAS query: " ++ dasQuery dataset,
                   "Please wait, this might take a moment..."]
  let files := splitWs queryOutput
  if files.isEmpty then
    { paths := [],
      messages := baseMsgs ++
        ["Error: No files found. Please check your proxy (voms-proxy-init) or the dataset name."] }
  else
    { paths := files.map (fun f => redirector ++ f), messages := baseMsgs }

/-- The dataset hardcoded in the resolver's `__main__` block. -/
def target_dataset : String :=
  "/TTHHTo4b_TuneCP5_13TeV-madgraph-pythia8/RunIISummer20UL17NanoAODv9-106X_mc2017_realistic_v9-v2/NANOAODSIM"

/-- The output file name hardcoded in the resolver's `__main__` block. -/
def output_filename : String := "file_list.txt"

/-- One run of the resolver script: file writes as (path, content) pairs plus
console messages. -/
structure ResolverRun where
  fileWrites : List (String × String)
  messages : List String
deriving DecidableEq

/-- The resolver's `__main__` block: calls `get_file_list` and, only when the
result is non-empty (`if file_list:`), writes one path per line to
`output_filename` and prints a success note plus a preview of the first three
entries. -/
def resolverMain (queryOutput : String) : ResolverRun :=
  let r := get_file_list target_dataset queryOutput
  if r.paths.isEmpty then
    { fileWrites := [], messages := r.messages }
  else
    { fileWrites := [(output_filename, joinAll (r.paths.map (fun p => p ++ "\n")))],
      messages := r.messages ++
        ["Success! Found " ++ natDec r.paths.length ++ " files.",
         "File list saved to: " ++ output_filename,
         "[Preview of first 3 files]"] ++ r.paths.take 3 }

/-! ### Batch submitter — `submit_condor.py`, emitted verbatim by
setup_framework_advanced.py (lines 234-328). -/

/-- Environment a single `submit_job` call sees: the working directory, the
baked-in EOS base path, whether the job's `input_list` path exists, and the
lines of that list file when it does. -/
structure JobEnv where
  cwd : String
  eosBase : String
  inputListExists : Bool
  inputLines : List String
deriving DecidableEq

/-- Effects of one `submit_job` call: directories created (`os.makedirs`),
file writes as (path, content) pairs, console messages, and the descriptor
paths passed to `condor_submit`. -/
structure JobResult where
  dirsCreated : List String
  fileWrites : List (String × String)
  messages : List String
  submitted : List String
deriving DecidableEq

/-- `files = [l.strip() for l in f_in if l.strip()]`: the input-list lines,
stripped, with blank lines dropped. Note that lines starting with `#` are NOT
dropped here. -/
def jobFiles (inputLines : List String) : List String :=
  (inputLines.map pyStrip).filter (fun l => l != "")

/-- `chunk_path = os.path.join(os.getcwd(), job_dir, f"chunk_{i}.txt")`. -/
def chunkPath (cwd jobDir : String) (i : Nat) : String :=
  cwd ++ "/" ++ jobDir ++ "/chunk_" ++ natDec i ++ ".txt"

/-- The chunk-file writes of the `for i, f_path in enumerate(files)` loop,
starting at index `i`. -/
def chunkWritesAux (cwd jobDir : String) (i : Nat) : List String → List (String × String)
  | [] => []
  | f :: fs => (chunkPath cwd jobDir i, f) :: chunkWritesAux cwd jobDir (i + 1) fs

/-- All chunk-file writes for a job. -/
def chunkWrites (cwd jobDir : String) (files : List String) : List (String × String) :=
  chunkWritesAux cwd jobDir 0 files

/-- One row of `arguments.txt`:
`f"{chunk_path} {output_name} {eos_dest} {weight} {is_data} {process}\n"`. -/
def argRow (cwd jobDir eosDest weight isData process : String) (i : Nat) : String :=
  chunkPath cwd jobDir i ++ " output_" ++ natDec i ++ ".root " ++ eosDest ++ " " ++
    weight ++ " " ++ isData ++ " " ++ process ++ "\n"

/-- The `arguments.txt` rows of the enumerate loop, starting at index `i`. -/
def argRowsAux (cwd jobDir eosDest weight isData process : String) (i : Nat) :
    List String → List String
  | [] => []
  | _ :: fs => argRow cwd jobDir eosDest weight isData process i ::
      argRowsAux cwd jobDir eosDest weight isData process (i + 1) fs

/-- All `arguments.txt` rows for a job. -/
def argRows (cwd jobDir eosDest weight isData process : String) (files : List String) :
    List String :=
  argRowsAux cwd jobDir eosDest weight isData process 0 files

/-- Content of `wrapper.sh` as written by `submit_job`. -/
def wrapperContent (cwd : String) : String :=
  "#!/bin/bash\n" ++
  "cd " ++ cwd ++ "\n" ++
  "source /cvmfs/cms.cern.ch/cmsset_default.sh\n" ++
  "eval $(scramv1 runtime -sh)\n" ++
  "# Verify Executable\n" ++
  "if [ ! -f ./runAnalysis ]; then\n" ++
  "    echo \x27ERROR: runAnalysis not found! Please run \\\x22make\\\x22 first.\x27\n" ++
  "    exit 1\n" ++
  "fi\n" ++
  "# Run Analyzer\n" ++
  "./runAnalysis $1 $2 $4 $5 $6\n" ++
  "# Copy to EOS\n" ++
  "xrdcp -f $2 root://eosuser.cern.ch/$3/$2\n" ++
  "rm $2\n"

/-- Content of `job.sub` as written by `submit_job`. -/
def subContent (jobDir wrapperPath argFile : String) : String :=
  "executable = " ++ wrapperPath ++ "\narguments = $(args)\n" ++
  "output = " ++ jobDir ++ "/job.$(ClusterId).$(ProcId).out\n" ++
  "error = " ++ jobDir ++ "/job.$(ClusterId).$(ProcId).err\n" ++
  "log = " ++ jobDir ++ "/job.log\n" ++
  "getenv = True\n+JobFlavour = \x22tomorrow\x22\n" ++
  "queue args from " ++ argFile ++ "\n"

/-- `submit_job(line)` from the generated `submit_condor.py`:
splits the line, warns and returns on fewer than 5 fields; creates the per-job
directory; errors and returns when the input list does not exist; otherwise
writes one chunk file per input entry, the arguments table, the wrapper script
and the submission descriptor, then calls `condor_submit`. -/
def submit_job (env : JobEnv) (line : String) : JobResult :=
  let parts := splitWs line
  if parts.length < 5 then
    { dirsCreated := [], fileWrites := [],
      messages := ["[WARNING] Skipping invalid line: " ++ line], submitted := [] }
  else
    let input_list := parts.getD 0 ""
    let output_dir := parts.getD 1 ""
    let weight := parts.getD 2 ""
    let is_data := parts.getD 3 ""
    let process := parts.getD 4 ""
    let job_dir := "condor/" ++ output_dir
    if !env.inputListExists then
      { dirsCreated := [job_dir], fileWrites := [],
        messages := ["[ERROR] List not found: " ++ input_list], submitted := [] }
    else
      let files := jobFiles env.inputLines
      let eos_dest := env.eosBase ++ "/" ++ output_dir
      let arg_file := job_dir ++ "/arguments.txt"
      let wrapper_path := job_dir ++ "/wrapper.sh"
      let sub_path := job_dir ++ "/job.sub"
      { dirsCreated := [job_dir],
        fileWrites := chunkWrites env.cwd job_dir files ++
          [(arg_file, joinAll (argRows env.cwd job_dir eos_dest weight is_data process files)),
           (wrapper_path, wrapperContent env.cwd),
           (sub_path, subContent job_dir wrapper_path arg_file)],
        messages := ["[JOB] Preparing " ++ process ++ " (" ++ output_dir ++ ") with " ++
            natDec files.length ++ " files.",
          "[INFO] Submitting... Logs: " ++ job_dir],
        submitted := [sub_path] }

/-- `main(config_file)` of `submit_condor.py`: for each config line that strips
non-empty and does not start with `#`, calls `submit_job` on the stripped line.
`envOf` supplies the filesystem environment seen for each stripped line. -/
def mainLoop (envOf : String → JobEnv) (configLines : List String) : List JobResult :=
  configLines.filterMap (fun line =>
    if pyStrip line != "" && !pyStartsWith line "#" then
      some (submit_job (envOf (pyStrip line)) (pyStrip line))
    else none)

/-- The file-list reader of the generated `main.cc`
(`if (line.empty() || line[0] == '#') continue; chain->Add(line.c_str());`):
the lines actually added to the TChain. -/
def mainCCAddedFiles (lines : List String) : List String :=
  lines.filter (fun l => !(l == "" || pyStartsWith l "#"))

/-! ### Scaffold generators — setup_framework.py and setup_framework_advanced.py -/

/-- The block of four field declarations spliced into the header by the
advanced generator (setup_framework_advanced.py lines 66-71), as one string. -/
def injectedBlock : String :=
  "\n   // --- [Advanced] User Settings ---\n" ++
  "   float fWeight = 1.0;\n" ++
  "   bool fIsData = false;\n" ++
  "   TString fProcess = \x22\x22;\n" ++
  "   TString fOutputFileName = \x22output.root\x22;\n" ++
  "   // --------------------------------\n\n"

/-- The access-modifier marker test of the advanced generator:
`"public" in line and ":" in line`. -/
def isPublicMarker (line : String) : Bool :=
  strContains line "public" && strContains line ":"

/-- The header rewrite of the advanced generator (lines 60-72): every line is
copied; immediately after the first line passing `isPublicMarker`, the
`injectedBlock` is written once and the remaining lines are copied verbatim.
The result is the content of `include/{class_name}.h`. -/
def injectFields : List String → String
  | [] => ""
  | l :: rest =>
    if isPublicMarker l then l ++ (injectedBlock ++ joinAll rest)
    else l ++ injectFields rest

/-- Outcome of one generator run. `exitCode = some c` means a controlled
`sys.exit` with a printed diagnostic; `exitCode = none` with `crashed = true`
means an unhandled exception escaped from an external call; `headerContent`
is the content of the rewritten header (advanced generator only). -/
structure GenOutcome where
  messages : List String
  exitCode : Option Nat
  dirsCreated : List String
  crashed : Bool
  skeletonGenerated : Bool
  generatedFiles : List String
  headerContent : Option String
deriving DecidableEq

/-- setup_framework.py `main()`. External facts are inputs: `rootAvail`
(ROOT importable), `fileOpens` (TFile.Open succeeds and not a zombie),
`treeExists` (`f.Get(tree_name)` returns a tree), `makeClassOk` (MakeClass
left both `.C` and `.h` in the working directory), `dirExists` (the output
directory already exists). Messages interpolating external runtime values
(entry counts, `os.getcwd()`) are elided. -/
def setup_framework (cn sampleFile treeName : String)
    (rootAvail fileOpens treeExists makeClassOk dirExists : Bool) : GenOutcome :=
  let m0 := ["[INFO] Initializing Structured Framework Generation",
             "[INFO] Target Directory: ./" ++ cn,
             "[INFO] Structure       : src/ (Source), include/ (Header)",
             "[INFO] Sample File     : " ++ sampleFile]
  if !rootAvail then
    { messages := m0 ++ ["[ERROR] Could not import ROOT module."], exitCode := some 1,
      dirsCreated := [], crashed := false, skeletonGenerated := false,
      generatedFiles := [], headerContent := none }
  else
  let m1 := m0 ++ ["[INFO] Opening file to extract TTree structure..."]
  if !fileOpens then
    { messages := m1 ++ ["[ERROR] Failed to open file: " ++ sampleFile], exitCode := some 1,
      dirsCreated := [], crashed := false, skeletonGenerated := false,
      generatedFiles := [], headerContent := none }
  else if !treeExists then
    { messages := m1 ++ ["[ERROR] TTree \x27" ++ treeName ++ "\x27 not found."],
      exitCode := some 1, dirsCreated := [], crashed := false,
      skeletonGenerated := false, generatedFiles := [], headerContent := none }
  else
  let (m2, dirs) :=
    if dirExists then
      (m1 ++ ["[WARNING] Directory \x27" ++ cn ++ "\x27 already exists."], ([] : List String))
    else
      (m1 ++ ["[INFO] Created directory structure: src/, include/"],
       [cn, cn ++ "/src", cn ++ "/include"])
  let m3 := m2 ++ ["[INFO] Running MakeClass(\x27" ++ cn ++ "\x27)..."]
  if !makeClassOk then
    { messages := m3 ++ ["[ERROR] MakeClass failed to generate files."], exitCode := some 1,
      dirsCreated := dirs, crashed := false, skeletonGenerated := false,
      generatedFiles := [], headerContent := none }
  else
    { messages := m3 ++
        ["[INFO] Moved " ++ cn ++ ".C -> src/",
         "[INFO] Moved " ++ cn ++ ".h -> include/",
         "[INFO] Generating C++ entry point: src/main.cc...",
         "[INFO] Generating Makefile: Makefile...",
         "[DONE] Framework generated in directory: " ++ cn ++ "/",
         "[NOTE] Source files are in \x27" ++ cn ++ "/src/\x27",
         "[NOTE] Header files are in \x27" ++ cn ++ "/include/\x27"],
      exitCode := none, dirsCreated := dirs, crashed := false, skeletonGenerated := true,
      generatedFiles := ["src/" ++ cn ++ ".C", "include/" ++ cn ++ ".h",
                         "src/main.cc", "Makefile"],
      headerContent := none }

/-- setup_framework_advanced.py `main()`. Same external inputs as the basic
generator, plus `headerLines`, the lines MakeClass wrote into
`{class_name}.h` (read back via `readlines`). Note: the advanced variant
checks neither `f.Get(tree_name)` for null nor the presence of the MakeClass
output files; in those cases the run dies with an unhandled exception
(`crashed = true`) after the directories were already created, with no
controlled diagnostic. It also prints no warning when the output directory
already exists. -/
def setup_framework_advanced (cn sampleFile treeName : String)
    (rootAvail fileOpens treeExists makeClassOk dirExists : Bool)
    (headerLines : List String) : GenOutcome :=
  let m0 := ["[INFO] Initializing ADVANCED Framework in: " ++ cn ++ "/"]
  if !rootAvail then
    { messages := m0 ++ ["[ERROR] ROOT not found."], exitCode := some 1,
      dirsCreated := [], crashed := false, skeletonGenerated := false,
      generatedFiles := [], headerContent := none }
  else if !fileOpens then
    { messages := m0 ++ ["[ERROR] Cannot open " ++ sampleFile], exitCode := some 1,
      dirsCreated := [], crashed := false, skeletonGenerated := false,
      generatedFiles := [], headerContent := none }
  else
  let dirs := if !dirExists then [cn, cn ++ "/src", cn ++ "/include", cn ++ "/condor"]
              else ([] : List String)
  let m1 := m0 ++ ["[INFO] Running MakeClass..."]
  if !treeExists then
    -- `tree` is a null object; `tree.MakeClass(class_name)` raises an
    -- unhandled exception; no script-level diagnostic is printed.
    { messages := m1, exitCode := none, dirsCreated := dirs, crashed := true,
      skeletonGenerated := false, generatedFiles := [], headerContent := none }
  else if !makeClassOk then
    -- `open(f"{class_name}.h")` raises an unhandled exception.
    { messages := m1, exitCode := none, dirsCreated := dirs, crashed := true,
      skeletonGenerated := false, generatedFiles := [], headerContent := none }
  else
    { messages := m1 ++ ["[DONE] Advanced Framework generated in: " ++ cn ++ "/"],
      exitCode := none, dirsCreated := dirs, crashed := false, skeletonGenerated := true,
      generatedFiles := ["include/" ++ cn ++ ".h", "src/" ++ cn ++ ".C",
                         "main.cc", "Makefile", "submit_condor.py"],
      headerContent := some (injectFields headerLines) }

/-- The chunking contract of one successful `submit_job` call, for
`files = jobFiles env.inputLines` and `jobDir = "condor/" ++ output label`:
the writes are exactly the chunk files followed by the arguments table, the
wrapper and the descriptor; there are as many chunk files as entries; the k-th
chunk write pairs the k-th chunk path with the k-th entry; the chunk paths are
pairwise distinct; the chunk contents are exactly the entries (hence equal as
sets); and the arguments table has one row per entry. -/
def chunkSpec (env : JobEnv) (line : String) (files : List String) (jobDir : String) : Prop :=
  (submit_job env line).fileWrites =
      chunkWrites env.cwd jobDir files ++
        [(jobDir ++ "/arguments.txt",
          joinAll (argRows env.cwd jobDir (env.eosBase ++ "/" ++ (splitWs line).getD 1 "")
            ((splitWs line).getD 2 "") ((splitWs line).getD 3 "")
            ((splitWs line).getD 4 "") files)),
         (jobDir ++ "/wrapper.sh", wrapperContent env.cwd),
         (jobDir ++ "/job.sub",
          subContent jobDir (jobDir ++ "/wrapper.sh") (jobDir ++ "/arguments.txt"))] ∧
  (chunkWrites env.cwd jobDir files).length = files.length ∧
  (∀ k, k < files.length →
    (chunkWrites env.cwd jobDir files).getD k ("", "") =
      (chunkPath env.cwd jobDir k, files.getD k "")) ∧
  ((chunkWrites env.cwd jobDir files).map Prod.fst).Nodup ∧
  (chunkWrites env.cwd jobDir files).map Prod.snd = files ∧
  (argRows env.cwd jobDir (env.eosBase ++ "/" ++ (splitWs line).getD 1 "")
    ((splitWs line).getD 2 "") ((splitWs line).getD 3 "")
    ((splitWs line).getD 4 "") files).length = files.length ∧
  (∀ s, s ∈ (chunkWrites env.cwd jobDir files).map Prod.snd ↔ s ∈ files)

/-! ### Helper lemmas -/

/-- Value of a decimal digit character produced by `Nat.digitChar`. -/
theorem digitChar_sub48 (d : Nat) (hd : d < 10) : (Nat.digitChar d).toNat - 48 = d := by
  interval_cases d <;> rfl

/-- `decVal` over a snoc list. -/
theorem decVal_append_singleton (l : List Char) (c : Char) :
    decVal (l ++ [c]) = 10 * decVal l + (c.toNat - 48) := by
  simp [decVal, List.foldl_append]

/-- `decVal` inverts `decDigitsAux` when the fuel suffices. -/
theorem decVal_decDigitsAux : ∀ f n, n ≤ f → decVal (decDigitsAux f n) = n := by
  intro f
  induction f with
  | zero =>
    intro n hn
    have : n = 0 := Nat.le_zero.mp hn
    subst this; rfl
  | succ f ih =>
    intro n hn
    by_cases h0 : n = 0
    · subst h0; rfl
    · have hdiv : n / 10 < n := Nat.div_lt_self (Nat.pos_of_ne_zero h0) (by norm_num)
      have hle : n / 10 ≤ f := by omega
      calc decVal (decDigitsAux (f + 1) n)
          = decVal (decDigitsAux f (n / 10) ++ [Nat.digitChar (n % 10)]) := by
            simp [decDigitsAux, h0]
        _ = 10 * decVal (decDigitsAux f (n / 10)) + ((Nat.digitChar (n % 10)).toNat - 48) :=
            decVal_append_singleton ..
        _ = 10 * (n / 10) + n % 10 := by
            rw [ih (n / 10) hle, digitChar_sub48 (n % 10) (Nat.mod_lt n (by norm_num))]
        _ = n := Nat.div_add_mod n 10

/-- `decVal` inverts `natDec`. -/
theorem decVal_natDec (n : Nat) : decVal (natDec n).data = n := by
  by_cases h : n = 0
  · subst h; rfl
  · show decVal (if n = 0 then ("0" : String) else String.mk (decDigitsAux n n)).data = n
    rw [if_neg h]
    exact decVal_decDigitsAux n n (Nat.le_refl n)

/-- `natDec` is injective at the character-list level. -/
theorem natDec_data_inj {m n : Nat} (h : (natDec m).data = (natDec n).data) : m = n := by
  have h2 := congrArg decVal h
  rwa [decVal_natDec, decVal_natDec] at h2

/-- `natDec` is injective. -/
theorem natDec_inj {m n : Nat} (h : natDec m = natDec n) : m = n :=
  natDec_data_inj (congrArg String.data h)

/-- Chunk paths with the same directory but different indices are distinct. -/
theorem chunkPath_inj (cwd d : String) {i j : Nat}
    (h : chunkPath cwd d i = chunkPath cwd d j) : i = j := by
  have h2 : (chunkPath cwd d i).data = (chunkPath cwd d j).data := congrArg String.data h
  simp only [chunkPath, String.data_append, List.append_assoc] at h2
  have h3 := List.append_cancel_left h2
  have h4 := List.append_cancel_left h3
  have h5 := List.append_cancel_left h4
  have h6 := List.append_cancel_left h5
  have h7 := List.append_cancel_right h6
  exact natDec_data_inj h7

/-- Length of the chunk-write list. -/
theorem chunkWritesAux_length (cwd d : String) :
    ∀ (fs : List String) (i : Nat), (chunkWritesAux cwd d i fs).length = fs.length := by
  intro fs
  induction fs with
  | nil => intro i; rfl
  | cons f fs ih => intro i; simp [chunkWritesAux, ih]

/-- The chunk-file contents are exactly the input entries, in order. -/
theorem chunkWritesAux_map_snd (cwd d : String) :
    ∀ (fs : List String) (i : Nat), (chunkWritesAux cwd d i fs).map Prod.snd = fs := by
  intro fs
  induction fs with
  | nil => intro i; rfl
  | cons f fs ih => intro i; simp [chunkWritesAux, ih]

/-- The k-th chunk write is the k-th entry at the k-th chunk path. -/
theorem chunkWritesAux_getD (cwd d : String) :
    ∀ (fs : List String) (i k : Nat), k < fs.length →
      (chunkWritesAux cwd d i fs).getD k ("", "") =
        (chunkPath cwd d (i + k), fs.getD k "") := by
  intro fs
  induction fs with
  | nil => intro i k hk; simp at hk
  | cons f fs ih =>
    intro i k hk
    cases k with
    | zero => simp [chunkWritesAux]
    | succ k =>
      have hk' : k < fs.length := by simpa using hk
      have := ih (i + 1) k hk'
      simp only [chunkWritesAux, List.getD_cons_succ, this]
      have : i + 1 + k = i + (k + 1) := by omega
      rw [this]

/-- Every chunk path in the tail of the write list has index at least `i`. -/
theorem chunkWritesAux_mem_fst (cwd d : String) :
    ∀ (fs : List String) (i : Nat) (p : String),
      p ∈ (chunkWritesAux cwd d i fs).map Prod.fst → ∃ k, i ≤ k ∧ p = chunkPath cwd d k := by
  intro fs
  induction fs with
  | nil => intro i p hp; simp [chunkWritesAux] at hp
  | cons f fs ih =>
    intro i p hp
    simp only [chunkWritesAux, List.map_cons, List.mem_cons] at hp
    rcases hp with hp | hp
    · exact ⟨i, Nat.le_refl i, hp⟩
    · rcases ih (i + 1) p hp with ⟨k, hk, hpk⟩
      exact ⟨k, by omega, hpk⟩

/-- The chunk paths of one job are pairwise distinct. -/
theorem chunkWritesAux_nodup (cwd d : String) :
    ∀ (fs : List String) (i : Nat), ((chunkWritesAux cwd d i fs).map Prod.fst).Nodup := by
  intro fs
  induction fs with
  | nil => intro i; simp [chunkWritesAux]
  | cons f fs ih =>
    intro i
    simp only [chunkWritesAux, List.map_cons, List.nodup_cons]
    refine ⟨fun hmem => ?_, ih (i + 1)⟩
    rcases chunkWritesAux_mem_fst cwd d fs (i + 1) _ hmem with ⟨k, hk, hpk⟩
    have : i = k := chunkPath_inj cwd d hpk
    omega

/-- Length of the arguments-table row list. -/
theorem argRowsAux_length (cwd d eos w dt p : String) :
    ∀ (fs : List String) (i : Nat), (argRowsAux cwd d eos w dt p i fs).length = fs.length := by
  intro fs
  induction fs with
  | nil => intro i; rfl
  | cons f fs ih => intro i; simp [argRowsAux, ih]

/-- Unfolding of `submit_job` on a line with fewer than 5 fields. -/
theorem submit_job_short (env : JobEnv) (line : String)
    (h : (splitWs line).length < 5) :
    submit_job env line =
      { dirsCreated := [], fileWrites := [],
        messages := ["[WARNING] Skipping invalid line: " ++ line], submitted := [] } := by
  simp [submit_job, h]

/-- Unfolding of `submit_job` when the input list does not exist. -/
theorem submit_job_missing (env : JobEnv) (line : String)
    (h5 : ¬ (splitWs line).length < 5) (hex : env.inputListExists = false) :
    submit_job env line =
      { dirsCreated := ["condor/" ++ (splitWs line).getD 1 ""], fileWrites := [],
        messages := ["[ERROR] List not found: " ++ (splitWs line).getD 0 ""],
        submitted := [] } := by
  simp [submit_job, h5, hex]

/-- Unfolding of `submit_job` on a well-formed line with an existing list. -/
theorem submit_job_valid (env : JobEnv) (line : String)
    (h5 : ¬ (splitWs line).length < 5) (hex : env.inputListExists = true) :
    submit_job env line =
      { dirsCreated := ["condor/" ++ (splitWs line).getD 1 ""],
        fileWrites :=
          chunkWrites env.cwd ("condor/" ++ (splitWs line).getD 1 "") (jobFiles env.inputLines) ++
          [("condor/" ++ (splitWs line).getD 1 "" ++ "/arguments.txt",
            joinAll (argRows env.cwd ("condor/" ++ (splitWs line).getD 1 "")
              (env.eosBase ++ "/" ++ (splitWs line).getD 1 "")
              ((splitWs line).getD 2 "") ((splitWs line).getD 3 "")
              ((splitWs line).getD 4 "") (jobFiles env.inputLines))),
           ("condor/" ++ (splitWs line).getD 1 "" ++ "/wrapper.sh",
            wrapperContent env.cwd),
           ("condor/" ++ (splitWs line).getD 1 "" ++ "/job.sub",
            subContent ("condor/" ++ (splitWs line).getD 1 "")
              ("condor/" ++ (splitWs line).getD 1 "" ++ "/wrapper.sh")
              ("condor/" ++ (splitWs line).getD 1 "" ++ "/arguments.txt"))],
        messages :=
          ["[JOB] Preparing " ++ (splitWs line).getD 4 "" ++ " (" ++
             (splitWs line).getD 1 "" ++ ") with " ++
             natDec (jobFiles env.inputLines).length ++ " files.",
           "[INFO] Submitting... Logs: " ++ ("condor/" ++ (splitWs line).getD 1 "")],
        submitted := ["condor/" ++ (splitWs line).getD 1 "" ++ "/job.sub"] } := by
  simp [submit_job, h5, hex, String.append_assoc]

/-- Unfolding of `mainLoop` on an eligible first line. -/
theorem mainLoop_cons_eligible (envOf : String → JobEnv) (line : String)
    (rest : List String) (htrim : pyStrip line = line) (hne : line ≠ "")
    (hhash : pyStartsWith line "#" = false) :
    mainLoop envOf (line :: rest) =
      submit_job (envOf line) line :: mainLoop envOf rest := by
  simp [mainLoop, List.filterMap_cons, htrim, hne, hhash]

/-- Appending the empty string on the left is the identity. -/
theorem strEmptyAppend (s : String) : "" ++ s = s := by
  ext1
  simp [String.data_append]

/-- `getD` commutes with `map` below the length. -/
theorem getD_map_lt {α β : Type} (f : α → β) (dA : α) (dB : β) :
    ∀ (l : List α) (k : Nat), k < l.length → (l.map f).getD k dB = f (l.getD k dA) := by
  intro l
  induction l with
  | nil => intro k hk; simp at hk
  | cons a l ih =>
    intro k hk
    cases k with
    | zero => simp
    | succ k => simpa using ih k (by simpa using hk)

/-- A header with no marker line is copied verbatim by the rewrite. -/
theorem injectFields_no_marker :
    ∀ (lines : List String), (∀ l ∈ lines, isPublicMarker l = false) →
      injectFields lines = joinAll lines := by
  intro lines
  induction lines with
  | nil => intro _; rfl
  | cons a ls ih =>
    intro h
    have ha := h a (List.mem_cons_self a ls)
    have h' := fun l hl => h l (List.mem_cons_of_mem a hl)
    simp [injectFields, ha, joinAll, ih h']

/-- The rewrite copies everything before the first marker line, splices the
block right after that line, and copies the rest verbatim. -/
theorem injectFields_first_marker :
    ∀ (pre : List String) (m : String) (post : List String),
      (∀ l ∈ pre, isPublicMarker l = false) → isPublicMarker m = true →
      injectFields (pre ++ m :: post) =
        joinAll pre ++ (m ++ (injectedBlock ++ joinAll post)) := by
  intro pre
  induction pre with
  | nil =>
    intro m post _ hm
    simp [injectFields, hm, joinAll, strEmptyAppend]
  | cons a pre ih =>
    intro m post hpre hm
    have ha := hpre a (List.mem_cons_self a pre)
    have h' := fun l hl => hpre l (List.mem_cons_of_mem a hl)
    simp [injectFields, ha, joinAll, ih m post h' hm, String.append_assoc]

/-! ### Claim theorems -/

/-- C1: for every job-configuration line with at least 5 fields whose input
list exists and holds `N` non-blank entries, `submit_job` creates exactly `N`
chunk files and exactly `N` arguments-table rows; the k-th chunk file's content
is exactly the k-th entry; the chunk paths are pairwise distinct (no duplicates,
no omissions); and the chunk-file contents taken together are exactly the
entries of the input list. -/
theorem C1_chunking_round_trip (env : JobEnv) (line : String)
    (files : List String) (jobDir : String)
    (h5 : ¬ (splitWs line).length < 5) (hex : env.inputListExists = true)
    (hfiles : files = jobFiles env.inputLines)
    (hdir : jobDir = "condor/" ++ (splitWs line).getD 1 "") :
    chunkSpec env line files jobDir := by
  subst hfiles hdir
  rw [chunkSpec, submit_job_valid env line h5 hex]
  refine ⟨rfl, chunkWritesAux_length .., ?_, chunkWritesAux_nodup ..,
    chunkWritesAux_map_snd .., argRowsAux_length .., ?_⟩
  · intro k hk
    simpa using chunkWritesAux_getD env.cwd ("condor/" ++ (splitWs line).getD 1 "")
      (jobFiles env.inputLines) 0 k hk
  · intro s
    rw [show chunkWrites env.cwd ("condor/" ++ (splitWs line).getD 1 "")
          (jobFiles env.inputLines) =
        chunkWritesAux env.cwd ("condor/" ++ (splitWs line).getD 1 "") 0
          (jobFiles env.inputLines) from rfl,
      chunkWritesAux_map_snd ..]

/-- C1 witness: concrete instance with a three-line input list (one blank). -/
theorem C1_chunking_round_trip_witness :
    (¬ (splitWs "list.txt myjob 1.0 0 TTbar").length < 5) ∧
    ((⟨"/ana", "/eos/u", true, ["a.root", "", "b.root"]⟩ : JobEnv).inputListExists = true) ∧
    chunkSpec ⟨"/ana", "/eos/u", true, ["a.root", "", "b.root"]⟩
      "list.txt myjob 1.0 0 TTbar" (jobFiles ["a.root", "", "b.root"])
      ("condor/" ++ (splitWs "list.txt myjob 1.0 0 TTbar").getD 1 "") :=
  ⟨by decide, rfl, C1_chunking_round_trip _ _ _ _ (by decide) rfl rfl rfl⟩

/-- C2: for a non-empty whitespace-token list in the catalog query output,
`get_file_list` returns one path per token, each equal to the fixed redirector
prepended to the corresponding token, in order. -/
theorem C2_resolver_prepends_redirector (dataset q : String) (tokens : List String)
    (htok : tokens = splitWs q) (hne : tokens ≠ []) :
    (get_file_list dataset q).paths.length = tokens.length ∧
    (get_file_list dataset q).paths = tokens.map (fun t => redirector ++ t) ∧
    ∀ k, k < tokens.length →
      (get_file_list dataset q).paths.getD k "" = redirector ++ tokens.getD k "" := by
  subst htok
  have hni : (splitWs q).isEmpty = false := by
    rcases h : splitWs q with _ | ⟨a, l⟩
    · exact absurd h hne
    · rfl
  refine ⟨?_, ?_, ?_⟩
  · simp [get_file_list, hni]
  · simp [get_file_list, hni]
  · intro k hk
    simp only [get_file_list, hni, Bool.false_eq_true, if_false]
    exact getD_map_lt (fun t => redirector ++ t) "" "" (splitWs q) k hk

/-- C2 witness: a two-token query output. -/
theorem C2_resolver_prepends_redirector_witness :
    (splitWs "/store/a.root\n/store/b.root\n" ≠ []) ∧
    ((get_file_list "ds" "/store/a.root\n/store/b.root\n").paths.length =
      (splitWs "/store/a.root\n/store/b.root\n").length ∧
     (get_file_list "ds" "/store/a.root\n/store/b.root\n").paths =
      (splitWs "/store/a.root\n/store/b.root\n").map (fun t => redirector ++ t) ∧
     ∀ k, k < (splitWs "/store/a.root\n/store/b.root\n").length →
      (get_file_list "ds" "/store/a.root\n/store/b.root\n").paths.getD k "" =
        redirector ++ (splitWs "/store/a.root\n/store/b.root\n").getD k "") :=
  ⟨by decide, C2_resolver_prepends_redirector "ds" _ _ rfl (by decide)⟩

/-- C3 counterexample: on an empty query result the resolver writes NO output
file at all (the `if file_list:` guard skips the write), so it does not
produce an empty output file. -/
theorem C3_no_file_counterexample :
    (resolverMain "").fileWrites = [] ∧
    ¬ (output_filename, "") ∈ (resolverMain "").fileWrites := by
  have h1 : (resolverMain "").fileWrites = [] := by decide
  exact ⟨h1, by simp [h1]⟩

/-- C3 amended: on an empty query result the resolver writes no output file,
prints a fixed non-empty diagnostic, and (being a total function of the query
output) raises no unhandled error. -/
theorem C3_empty_query_no_write (q : String) (h : splitWs q = []) :
    (resolverMain q).fileWrites = [] ∧
    "Error: No files found. Please check your proxy (voms-proxy-init) or the dataset name."
      ∈ (resolverMain q).messages ∧
    "Error: No files found. Please check your proxy (voms-proxy-init) or the dataset name."
      ≠ "" := by
  refine ⟨?_, ?_, by decide⟩
  · simp [resolverMain, get_file_list, h]
  · simp [resolverMain, get_file_list, h]

/-- C3 amended witness: the empty query output. -/
theorem C3_empty_query_no_write_witness :
    (splitWs "" = []) ∧
    ((resolverMain "").fileWrites = [] ∧
     "Error: No files found. Please check your proxy (voms-proxy-init) or the dataset name."
       ∈ (resolverMain "").messages ∧
     "Error: No files found. Please check your proxy (voms-proxy-init) or the dataset name."
       ≠ "") :=
  ⟨rfl, C3_empty_query_no_write "" rfl⟩

/-- C4: a job-configuration line with fewer than 5 whitespace-separated fields
is reported with exactly one warning and produces no directory, no file write
and no submission; the loop then continues with the remaining lines. -/
theorem C4_short_line_skipped (envOf : String → JobEnv) (line : String)
    (rest : List String) (hlt : (splitWs line).length < 5)
    (htrim : pyStrip line = line) (hne : line ≠ "")
    (hhash : pyStartsWith line "#" = false) :
    mainLoop envOf (line :: rest) =
      submit_job (envOf line) line :: mainLoop envOf rest ∧
    submit_job (envOf line) line =
      { dirsCreated := [], fileWrites := [],
        messages := ["[WARNING] Skipping invalid line: " ++ line], submitted := [] } :=
  ⟨mainLoop_cons_eligible envOf line rest htrim hne hhash,
   submit_job_short (envOf line) line hlt⟩

/-- C4 witness: a two-field line followed by another config line. -/
theorem C4_short_line_skipped_witness :
    ((splitWs "list.txt myjob").length < 5) ∧
    (pyStrip "list.txt myjob" = "list.txt myjob") ∧
    ("list.txt myjob" ≠ "") ∧
    (pyStartsWith "list.txt myjob" "#" = false) ∧
    (mainLoop (fun _ => ⟨"/ana", "/eos/u", true, []⟩) ["list.txt myjob", "x"] =
        submit_job ⟨"/ana", "/eos/u", true, []⟩ "list.txt myjob" ::
          mainLoop (fun _ => ⟨"/ana", "/eos/u", true, []⟩) ["x"] ∧
     submit_job ⟨"/ana", "/eos/u", true, []⟩ "list.txt myjob" =
      { dirsCreated := [], fileWrites := [],
        messages := ["[WARNING] Skipping invalid line: list.txt myjob"],
        submitted := [] }) :=
  ⟨by decide, by decide, by decide, by decide,
   C4_short_line_skipped _ _ _ (by decide) (by decide) (by decide) (by decide)⟩

/-- C5: a well-formed line whose input list does not exist is reported with
exactly one error message and produces no arguments table, chunk file, wrapper
or descriptor write and no submission; the loop then continues with the
remaining lines (the run is not aborted). -/
theorem C5_missing_list_skipped (envOf : String → JobEnv) (line : String)
    (rest : List String) (h5 : ¬ (splitWs line).length < 5)
    (htrim : pyStrip line = line) (hne : line ≠ "")
    (hhash : pyStartsWith line "#" = false)
    (hex : (envOf line).inputListExists = false) :
    mainLoop envOf (line :: rest) =
      submit_job (envOf line) line :: mainLoop envOf rest ∧
    (submit_job (envOf line) line).fileWrites = [] ∧
    (submit_job (envOf line) line).submitted = [] ∧
    (submit_job (envOf line) line).messages =
      ["[ERROR] List not found: " ++ (splitWs line).getD 0 ""] := by
  refine ⟨mainLoop_cons_eligible envOf line rest htrim hne hhash, ?_, ?_, ?_⟩ <;>
    rw [submit_job_missing (envOf line) line h5 hex]

/-- C5 witness: a well-formed line with a missing list, followed by another line. -/
theorem C5_missing_list_skipped_witness :
    (¬ (splitWs "gone.txt myjob 1.0 0 TTbar").length < 5) ∧
    (pyStrip "gone.txt myjob 1.0 0 TTbar" = "gone.txt myjob 1.0 0 TTbar") ∧
    ("gone.txt myjob 1.0 0 TTbar" ≠ "") ∧
    (pyStartsWith "gone.txt myjob 1.0 0 TTbar" "#" = false) ∧
    ((⟨"/ana", "/eos/u", false, []⟩ : JobEnv).inputListExists = false) ∧
    (mainLoop (fun _ => ⟨"/ana", "/eos/u", false, []⟩)
        ["gone.txt myjob 1.0 0 TTbar", "x"] =
      submit_job ⟨"/ana", "/eos/u", false, []⟩ "gone.txt myjob 1.0 0 TTbar" ::
        mainLoop (fun _ => ⟨"/ana", "/eos/u", false, []⟩) ["x"] ∧
     (submit_job ⟨"/ana", "/eos/u", false, []⟩ "gone.txt myjob 1.0 0 TTbar").fileWrites = [] ∧
     (submit_job ⟨"/ana", "/eos/u", false, []⟩ "gone.txt myjob 1.0 0 TTbar").submitted = [] ∧
     (submit_job ⟨"/ana", "/eos/u", false, []⟩ "gone.txt myjob 1.0 0 TTbar").messages =
      ["[ERROR] List not found: " ++
        (splitWs "gone.txt myjob 1.0 0 TTbar").getD 0 ""]) :=
  ⟨by decide, by decide, by decide, by decide, rfl,
   C5_missing_list_skipped _ _ _ (by decide) (by decide) (by decide) (by decide) rfl⟩

/-- C10: on a well-formed line whose input list is missing, the per-job
directory is still created (the `os.makedirs` call precedes the existence
check), even though no file is written and nothing is submitted. -/
theorem C10_dir_created_before_check (env : JobEnv) (line : String)
    (h5 : ¬ (splitWs line).length < 5) (hex : env.inputListExists = false) :
    (submit_job env line).dirsCreated = ["condor/" ++ (splitWs line).getD 1 ""] ∧
    (submit_job env line).fileWrites = [] ∧
    (submit_job env line).submitted = [] := by
  rw [submit_job_missing env line h5 hex]
  exact ⟨rfl, rfl, rfl⟩

/-- C10 witness. -/
theorem C10_dir_created_before_check_witness :
    (¬ (splitWs "gone.txt myjob 1.0 0 TTbar").length < 5) ∧
    ((⟨"/ana", "/eos/u", false, []⟩ : JobEnv).inputListExists = false) ∧
    ((submit_job ⟨"/ana", "/eos/u", false, []⟩ "gone.txt myjob 1.0 0 TTbar").dirsCreated =
        ["condor/" ++ (splitWs "gone.txt myjob 1.0 0 TTbar").getD 1 ""] ∧
     (submit_job ⟨"/ana", "/eos/u", false, []⟩ "gone.txt myjob 1.0 0 TTbar").fileWrites = [] ∧
     (submit_job ⟨"/ana", "/eos/u", false, []⟩ "gone.txt myjob 1.0 0 TTbar").submitted = []) :=
  ⟨by decide, rfl, C10_dir_created_before_check _ _ (by decide) rfl⟩

/-- C9 counterexample: the submitter does NOT skip lines starting with `#`:
with input list lines `["#comment", "a.root"]`, the very first chunk write is
the chunk file containing `#comment`, and `#comment` is among the chunk-file
contents. -/
theorem C9_hash_line_becomes_chunk :
    (submit_job ⟨"/ana", "/eos/u", true, ["#comment", "a.root"]⟩
        "list.txt myjob 1.0 0 TTbar").fileWrites.getD 0 ("", "") =
      ("/ana/condor/myjob/chunk_0.txt", "#comment") ∧
    ((submit_job ⟨"/ana", "/eos/u", true, ["#comment", "a.root"]⟩
        "list.txt myjob 1.0 0 TTbar").fileWrites.map Prod.snd).contains "#comment" = true := by
  exact ⟨by decide, by decide⟩

/-- C9 amended: consumers differ. The generated `main.cc` reader skips blank
lines and lines starting with `#`; the submitter's list reader skips only
blank lines, so every non-blank line (including `#`-lines) becomes a chunk
file: the chunk-file contents are exactly `jobFiles env.inputLines`, and every
line with non-blank strip appears among the written contents. -/
theorem C9_consumer_skip_behaviour (env : JobEnv) (line : String) (lines : List String)
    (h5 : ¬ (splitWs line).length < 5) (hex : env.inputListExists = true) :
    ((submit_job env line).fileWrites.map Prod.snd).take (jobFiles env.inputLines).length =
      jobFiles env.inputLines ∧
    (∀ l ∈ env.inputLines, pyStrip l ≠ "" →
      pyStrip l ∈ (submit_job env line).fileWrites.map Prod.snd) ∧
    (∀ l ∈ lines, (l = "" ∨ pyStartsWith l "#" = true) → l ∉ mainCCAddedFiles lines) := by
  have hmain := submit_job_valid env line h5 hex
  have hsnd : ((submit_job env line).fileWrites.map Prod.snd) =
      jobFiles env.inputLines ++
        [joinAll (argRows env.cwd ("condor/" ++ (splitWs line).getD 1 "")
            (env.eosBase ++ "/" ++ (splitWs line).getD 1 "")
            ((splitWs line).getD 2 "") ((splitWs line).getD 3 "")
            ((splitWs line).getD 4 "") (jobFiles env.inputLines)),
          wrapperContent env.cwd,
          subContent ("condor/" ++ (splitWs line).getD 1 "")
            ("condor/" ++ (splitWs line).getD 1 "" ++ "/wrapper.sh")
            ("condor/" ++ (splitWs line).getD 1 "" ++ "/arguments.txt")] := by
    rw [hmain]
    show (chunkWritesAux env.cwd _ 0 _ ++ _).map Prod.snd = _
    rw [List.map_append, chunkWritesAux_map_snd]
    rfl
  refine ⟨?_, ?_, ?_⟩
  · rw [hsnd, List.take_left]
  · intro l hl hne
    rw [hsnd]
    refine List.mem_append_left _ ?_
    unfold jobFiles
    refine List.mem_filter.mpr ⟨List.mem_map_of_mem pyStrip hl, ?_⟩
    simpa using hne
  · intro l hl hcond hmem
    have hp := (List.mem_filter.mp hmem).2
    rcases hcond with hcond | hcond <;> simp [hcond] at hp

/-- C9 amended witness: a list with a `#`-line and a blank line. -/
theorem C9_consumer_skip_behaviour_witness :
    (¬ (splitWs "list.txt myjob 1.0 0 TTbar").length < 5) ∧
    ((⟨"/ana", "/eos/u", true, ["#c", "", "x.root"]⟩ : JobEnv).inputListExists = true) ∧
    (((submit_job ⟨"/ana", "/eos/u", true, ["#c", "", "x.root"]⟩
          "list.txt myjob 1.0 0 TTbar").fileWrites.map Prod.snd).take
        (jobFiles ["#c", "", "x.root"]).length = jobFiles ["#c", "", "x.root"] ∧
     (∀ l ∈ ["#c", "", "x.root"], pyStrip l ≠ "" →
       pyStrip l ∈ (submit_job ⟨"/ana", "/eos/u", true, ["#c", "", "x.root"]⟩
          "list.txt myjob 1.0 0 TTbar").fileWrites.map Prod.snd) ∧
     (∀ l ∈ ["#c", "", "y.root"], (l = "" ∨ pyStartsWith l "#" = true) →
       l ∉ mainCCAddedFiles ["#c", "", "y.root"])) :=
  ⟨by decide, rfl,
   C9_consumer_skip_behaviour ⟨"/ana", "/eos/u", true, ["#c", "", "x.root"]⟩
     "list.txt myjob 1.0 0 TTbar" ["#c", "", "y.root"] (by decide) rfl⟩

/-- C6: the advanced header rewrite splices the four fixed field declarations
exactly once, immediately after the first line passing the access-modifier
test, copying every other line unchanged; a header with no such line is
reproduced verbatim with nothing injected. -/
theorem C6_header_injection (pre : List String) (m : String)
    (post lines : List String)
    (hpre : ∀ l ∈ pre, isPublicMarker l = false) (hm : isPublicMarker m = true)
    (hnone : ∀ l ∈ lines, isPublicMarker l = false) :
    injectFields (pre ++ m :: post) =
      joinAll pre ++ (m ++ (injectedBlock ++ joinAll post)) ∧
    injectFields lines = joinAll lines :=
  ⟨injectFields_first_marker pre m post hpre hm, injectFields_no_marker lines hnone⟩

/-- C6 witness: a small header with one marker line, and a marker-free header. -/
theorem C6_header_injection_witness :
    (∀ l ∈ ["// generated header\n"], isPublicMarker l = false) ∧
    (isPublicMarker "public:\n" = true) ∧
    (∀ l ∈ ["// no marker here\n", "   Int_t run;\n"], isPublicMarker l = false) ∧
    (injectFields (["// generated header\n"] ++ "public:\n" :: ["   Int_t run;\n"]) =
      joinAll ["// generated header\n"] ++
        ("public:\n" ++ (injectedBlock ++ joinAll ["   Int_t run;\n"])) ∧
     injectFields ["// no marker here\n", "   Int_t run;\n"] =
      joinAll ["// no marker here\n", "   Int_t run;\n"]) :=
  ⟨by decide, by decide, by decide,
   C6_header_injection ["// generated header\n"] "public:\n" ["   Int_t run;\n"]
     ["// no marker here\n", "   Int_t run;\n"] (by decide) (by decide) (by decide)⟩

/-- C7 (code divergence): when the sample file opens but the named tree is
absent, the ADVANCED generator does not exit with a controlled diagnostic: it
performs no tree check, creates the whole output directory tree, and then dies
with an unhandled exception inside the external MakeClass call, printing no
ERROR-prefixed message; the basic generator at the same inputs does exit with
code 1 and a printed diagnostic. -/
theorem C7_advanced_missing_table_no_diagnostic :
    (setup_framework_advanced "CMSAnalyzer" "sample.root" "NoSuchTree"
        true true false true false []).exitCode = none ∧
    (setup_framework_advanced "CMSAnalyzer" "sample.root" "NoSuchTree"
        true true false true false []).crashed = true ∧
    (setup_framework_advanced "CMSAnalyzer" "sample.root" "NoSuchTree"
        true true false true false []).skeletonGenerated = false ∧
    (setup_framework_advanced "CMSAnalyzer" "sample.root" "NoSuchTree"
        true true false true false []).dirsCreated =
      ["CMSAnalyzer", "CMSAnalyzer/src", "CMSAnalyzer/include", "CMSAnalyzer/condor"] ∧
    (∀ msg ∈ (setup_framework_advanced "CMSAnalyzer" "sample.root" "NoSuchTree"
        true true false true false []).messages,
      pyStartsWith msg "[ERROR]" = false) ∧
    (setup_framework "CMSAnalyzer" "sample.root" "NoSuchTree"
        true true false true false).exitCode = some 1 ∧
    "[ERROR] TTree \x27NoSuchTree\x27 not found." ∈
      (setup_framework "CMSAnalyzer" "sample.root" "NoSuchTree"
        true true false true false).messages := by
  exact ⟨rfl, rfl, rfl, rfl, by decide, rfl, by decide⟩

/-- C8 counterexample: with the output directory already existing, the
ADVANCED generator proceeds but emits no warning at all. -/
theorem C8_advanced_no_warning :
    (setup_framework_advanced "CMSAnalyzer" "sample.root" "Events"
        true true true true true []).exitCode = none ∧
    (setup_framework_advanced "CMSAnalyzer" "sample.root" "Events"
        true true true true true []).skeletonGenerated = true ∧
    (∀ msg ∈ (setup_framework_advanced "CMSAnalyzer" "sample.root" "Events"
        true true true true true []).messages,
      pyStartsWith msg "[WARNING]" = false) := by
  exact ⟨rfl, rfl, by decide⟩

/-- C8 amended: both generators proceed with generation when the output
directory already exists; the basic generator prints a warning, while the
advanced generator prints none (all of its messages are the fixed INFO/DONE
lines). -/
theorem C8_existing_dir_behaviour (cn sampleFile treeName : String)
    (headerLines : List String) :
    ("[WARNING] Directory \x27" ++ cn ++ "\x27 already exists.") ∈
      (setup_framework cn sampleFile treeName true true true true true).messages ∧
    (setup_framework cn sampleFile treeName true true true true true).exitCode = none ∧
    (setup_framework cn sampleFile treeName true true true true true).skeletonGenerated
      = true ∧
    (setup_framework_advanced cn sampleFile treeName true true true true true
      headerLines).exitCode = none ∧
    (setup_framework_advanced cn sampleFile treeName true true true true true
      headerLines).skeletonGenerated = true ∧
    ∀ msg ∈ (setup_framework_advanced cn sampleFile treeName true true true true true
      headerLines).messages, pyStartsWith msg "[WARNING]" = false := by
  refine ⟨?_, rfl, rfl, rfl, rfl, ?_⟩
  · simp [setup_framework]
  · intro msg hmsg
    have h3 : msg = "[INFO] Initializing ADVANCED Framework in: " ++ cn ++ "/" ∨
        msg = "[INFO] Running MakeClass..." ∨
        msg = "[DONE] Advanced Framework generated in: " ++ cn ++ "/" := by
      simpa [setup_framework_advanced] using hmsg
    rcases h3 with h | h | h <;> subst h <;> rfl
